import Mathlib

/-!
Verification of `check_ecas_status.py`.

The script scrapes a case-status portal, extracts a status string and a
case-history link from the authenticated page with BeautifulSoup, formats
the case-history bullet items, detects a status change against a persisted
state file, and sends a notification email.

Shallow embedding conventions:
* An HTML document, as parsed by BeautifulSoup, is a forest of `Node`s
  (element nodes with tag, attributes and children, and text nodes).
  Parsing itself is the external library's job; the embedded functions take
  both the raw HTML string (which the source writes verbatim to debug
  files) and its parsed forest.
* File writes performed by a function are returned explicitly as a list of
  `(path, content)` pairs.
* The state file is an `Option String`: `none` when the file does not
  exist, `some c` when it exists with content `c`.
* Python raising/propagating exceptions is modelled by the run stopping:
  statements after a failing call contribute no effects.
-/

namespace CheckEcas

/-- A node of a parsed HTML document: either a text node or an element with
a tag name, an attribute list and a list of children (document order). -/
inductive Node where
| text : String → Node
| elem : String → List (String × String) → List Node → Node

/-- Tag name of an element node, `none` for a text node. -/
def Node.tag? : Node → Option String
| .text _ => none
| .elem t _ _ => some t

/-- First attribute value with the given key, `none` if absent or a text
node. -/
def Node.attr : Node → String → Option String
| .text _, _ => none
| .elem _ attrs _, k => (attrs.find? (fun p => p.1 == k)).map Prod.snd

/-- Children of a node (empty for a text node). -/
def Node.children : Node → List Node
| .text _ => []
| .elem _ _ cs => cs

mutual

/-- All text-node contents of a node, in document order (BeautifulSoup's
`.strings` of a tag). -/
def Node.strings : Node → List String
| .text s => [s]
| .elem _ _ cs => stringsList cs

/-- All text-node contents of a forest, in document order. -/
def stringsList : List Node → List String
| [] => []
| c :: cs => c.strings ++ stringsList cs

end

/-- Model of Python `str.strip()` over the whitespace characters of
`Char.isWhitespace`: drop leading and trailing whitespace characters. -/
def pyStrip (s : String) : String :=
  String.mk (((s.data.dropWhile Char.isWhitespace).reverse.dropWhile Char.isWhitespace).reverse)

/-- Helper for `pySplit`: scan the characters, accumulating the current
word reversed; whitespace ends a word, empty words are dropped. -/
def pySplitAux : List Char → List Char → List String
| [], acc => if acc.isEmpty then [] else [String.mk acc.reverse]
| c :: cs, acc =>
    if Char.isWhitespace c then
      if acc.isEmpty then pySplitAux cs [] else String.mk acc.reverse :: pySplitAux cs []
    else pySplitAux cs (c :: acc)

/-- Model of Python `str.split()` with no argument: the maximal non-empty
runs of non-whitespace characters, in order. -/
def pySplit (s : String) : List String := pySplitAux s.data []

/-- Whether `pre` is a prefix of `s` (model of `str.startswith` and of the
CSS `^=` attribute match). -/
def strStartsWith (pre s : String) : Bool := pre.data.isPrefixOf s.data

/-- Model of BeautifulSoup `tag.get_text(" ", strip=True)`: every descendant
string is stripped of leading and trailing whitespace, whitespace-only
strings are dropped, and the rest are joined with a single space.
(Whitespace inside a single text fragment is not touched.) -/
def getTextSpaceStrip (n : Node) : String :=
  String.intercalate " " ((n.strings.map pyStrip).filter (fun s => s != ""))

/-- Model of the Python idiom `" ".join(s.split())`: split on runs of
whitespace, drop empty pieces, join with single spaces. This fully
collapses internal whitespace. -/
def collapseWs (s : String) : String :=
  String.intercalate " " (pySplit s)

/-- The CSS selector `a[href^="viewcasehistory.do"]`: an `a` element whose
`href` attribute value starts with `viewcasehistory.do`. -/
def isCaseHistoryLink (n : Node) : Bool :=
  n.tag? == some "a" &&
    (match n.attr "href" with
     | some h => strStartsWith "viewcasehistory.do" h
     | none => false)

/-- The CSS selector `li.mrgn-bttm-md`: an `li` element whose `class`
attribute, split on whitespace, contains the token `mrgn-bttm-md`. -/
def isHistoryBullet (n : Node) : Bool :=
  n.tag? == some "li" &&
    (match n.attr "class" with
     | some v => (pySplit v).contains "mrgn-bttm-md"
     | none => false)

/-- Element with the given tag name. -/
def isTag (t : String) (n : Node) : Bool := n.tag? == some t

mutual

/-- All elements of a node's subtree satisfying `p`, in document order
(pre-order); model of BeautifulSoup `select` / `find_all` restricted to
the subtree rooted at the node, the node included. -/
def selectAllNode (p : Node → Bool) : Node → List Node
| .text _ => []
| .elem t attrs cs =>
    (if p (.elem t attrs cs) then [Node.elem t attrs cs] else []) ++ selectAllList p cs

/-- All elements of a forest satisfying `p`, in document order. -/
def selectAllList (p : Node → Bool) : List Node → List Node
| [] => []
| c :: cs => selectAllNode p c ++ selectAllList p cs

end

mutual

/-- First element (document order) of a node's subtree satisfying `p`,
together with its ancestor chain, nearest ancestor first; `anc` is the
chain above the node itself. Model of BeautifulSoup `select_one` enriched
with the information `find_parent` needs. -/
def findWithAncestors (p : Node → Bool) (anc : List Node) : Node → Option (Node × List Node)
| .text _ => none
| .elem t attrs cs =>
    if p (.elem t attrs cs) then some (.elem t attrs cs, anc)
    else findWithAncestorsList p (.elem t attrs cs :: anc) cs

/-- First element of a forest satisfying `p`, with its ancestor chain. -/
def findWithAncestorsList (p : Node → Bool) (anc : List Node) : List Node → Option (Node × List Node)
| [] => none
| c :: cs =>
    match findWithAncestors p anc c with
    | some r => some r
    | none => findWithAncestorsList p anc cs

end

/-- The hardcoded portal base URL (`BASE_URL` in the source). -/
def BASE_URL : String := "https://services3.cic.gc.ca/ecas/"

/-- Model of `urllib.parse.urljoin(BASE_URL, rel)` for the base URL above,
whose path ends in a slash: an already-absolute `rel` is returned as is, a
scheme-relative `rel` inherits the base scheme, a root-relative `rel` is
attached to the base origin, and any other relative `rel` is appended to
the base (the base path's last segment is empty, so nothing is dropped). -/
def urljoin (base rel : String) : String :=
  if rel == "" then base
  else if strStartsWith "http://" rel || strStartsWith "https://" rel then rel
  else if strStartsWith "//" rel then "https:" ++ rel
  else if strStartsWith "/" rel then "https://services3.cic.gc.ca" ++ rel
  else base ++ rel

/-- Shallow embedding of `extract_name_status_and_link` (source lines
63-83). `raw` is the HTML string passed to the function, `doc` its parsed
forest. The result is the returned `(person_name, status_text, case_url)`
triple together with the list of file writes the call performs. -/
def extract_name_status_and_link (raw : String) (doc : List Node) :
    (String × String × String) × List (String × String) :=
  match findWithAncestorsList isCaseHistoryLink [] doc with
  | none =>
      (("(name not found)", "⚠️ Status not found", ""),
       [("debug_ecas_after_auth.html", raw)])
  | some (a, anc) =>
      let status_text := getTextSpaceStrip a
      let case_url := urljoin BASE_URL ((a.attr "href").getD "")
      let person_name :=
        match anc.find? (isTag "tr") with
        | none => "(name not found)"
        | some tr =>
            match selectAllList (isTag "td") tr.children with
            | [] => "(name not found)"
            | td :: _ => collapseWs (getTextSpaceStrip td)
      ((person_name, status_text, case_url), [])

/-- Shallow embedding of `parse_case_history_details` (source lines
85-99): texts of all `li.mrgn-bttm-md` elements; if none, write the HTML
to the debug file and return the warning sentinel, otherwise one line per
item prefixed with a dash, newline-joined. -/
def parse_case_history_details (raw : String) (doc : List Node) :
    String × List (String × String) :=
  let items := (selectAllList isHistoryBullet doc).map getTextSpaceStrip
  if items.isEmpty then
    ("⚠️ No case-history bullet items found (see debug_case_history.html)",
     [("debug_case_history.html", raw)])
  else
    (String.intercalate "\n" (items.map (fun text => "- " ++ text)), [])

/-- Shallow embedding of `load_previous_status` (source lines 102-103):
the state file's content stripped of surrounding whitespace if the file
exists, the empty string otherwise. -/
def load_previous_status (file : Option String) : String :=
  match file with
  | some s => pyStrip s
  | none => ""

/-- Shallow embedding of `save_current_status` (source lines 106-107): the
state file's content after the write is exactly the given status. -/
def save_current_status (status : String) : Option String := some status

/-- The placeholder `fetch_case_history` returns without any request when
the case URL is empty (source line 56). -/
def no_link_placeholder : String := "No case history link found."

/-- The change flag computed by `main` (source line 132):
`changed = (prev != "" and status != prev)`. -/
def changed_flag (prev status : String) : Bool := prev != "" && status != prev

/-- The email subject composed by `main` (source line 136):
`f"eCAS: {status}" + (" 🆕" if changed else "")`. -/
def email_subject (status : String) (changed : Bool) : String :=
  "eCAS: " ++ status ++ (if changed then " 🆕" else "")

/-- Observable outcome of one run of `main`. -/
structure RunResult where
  person_name : String
  status : String
  case_url : String
  case_details : String
  prev : String
  changed : Bool
  subject : String
  body : String
  debug_writes : List (String × String)
  email_sent : Bool
  state_writes : List String
  completed : Bool

/-- Shallow embedding of `main` (source lines 121-152) from the point
where the authenticated page is in hand. External effects are oracles:
`authRaw`/`authDoc` are the authenticated page and its parse, `histRaw`/
`histDoc` the case-history page and its parse (consulted only when a
non-empty case URL was extracted; an empty case URL makes
`fetch_case_history` return its placeholder string, which is then parsed
as a single text node), `stateFile` the state file content, `emailOk`
whether the SMTP send succeeds, `now` the formatted timestamp. A failing
`send_email` raises, so the statements after it (the state-file write and
the summary print) do not run: `state_writes` is empty and `completed` is
false in that case. -/
def main_run (authRaw : String) (authDoc : List Node)
    (histRaw : String) (histDoc : List Node)
    (stateFile : Option String) (emailOk : Bool) (now : String) : RunResult :=
  let er := extract_name_status_and_link authRaw authDoc
  let person_name := er.1.1
  let status := er.1.2.1
  let case_url := er.1.2.2
  let fetched :=
    if case_url == "" then (no_link_placeholder, [Node.text no_link_placeholder])
    else (histRaw, histDoc)
  let pr := parse_case_history_details fetched.1 fetched.2
  let case_details := pr.1
  let prev := load_previous_status stateFile
  let changed := changed_flag prev status
  let subject := email_subject status changed
  let body := String.intercalate "\n"
    ["Run time: " ++ now,
     "Applicant: " ++ person_name,
     "Current status: " ++ status,
     "",
     "Case history link: " ++ case_url,
     "",
     "Case history details:",
     case_details]
  { person_name := person_name
    status := status
    case_url := case_url
    case_details := case_details
    prev := prev
    changed := changed
    subject := subject
    body := body
    debug_writes := er.2 ++ pr.2
    email_sent := emailOk
    state_writes := if emailOk then [status] else []
    completed := emailOk }

/-- The applicant-name rule as the spec words it: the whitespace-collapsed
visible text of the first table cell in the table row enclosing the link
(the nearest `tr` ancestor); the sentinel when there is no enclosing row
or the row has no cells. Stated over the link's ancestor chain, nearest
ancestor first. -/
def spec_name_rule (anc : List Node) : String :=
  match anc.find? (isTag "tr") with
  | none => "(name not found)"
  | some tr =>
      match selectAllList (isTag "td") tr.children with
      | [] => "(name not found)"
      | td :: _ => collapseWs (getTextSpaceStrip td)

/-! Concrete sample documents used by witnesses and counterexamples. -/

/-- A table cell holding an applicant name with ragged whitespace. -/
def sampleTd1 : Node := .elem "td" [] [.text " John   Doe "]

/-- A case-history link whose text has surrounding whitespace. -/
def sampleLink : Node :=
  .elem "a" [("href", "viewcasehistory.do?id=1")] [.text " In process "]

/-- The cell holding the case-history link. -/
def sampleTd2 : Node := .elem "td" [] [sampleLink]

/-- The table row holding name cell and link cell. -/
def sampleTr : Node := .elem "tr" [] [sampleTd1, sampleTd2]

/-- The table around the row. -/
def sampleTable : Node := .elem "table" [] [sampleTr]

/-- An authenticated page containing the case-history link. -/
def samplePage : List Node := [sampleTable]

/-- A history bullet whose text is the single letter A. -/
def bulletA : Node := .elem "li" [("class", "mrgn-bttm-md")] [.text "A"]

/-- A history bullet whose text is the single letter B. -/
def bulletB : Node := .elem "li" [("class", "mrgn-bttm-md")] [.text "B"]

/-- A history bullet whose text is the single letter C. -/
def bulletC : Node := .elem "li" [("class", "mrgn-bttm-md")] [.text "C"]

/-- A history page with the three bullets A, B, C. -/
def historyABC : List Node := [.elem "ul" [] [bulletA, bulletB, bulletC]]

end CheckEcas

namespace CheckEcas

/-- Helper: appending the empty string on the right is the identity. -/
theorem string_append_empty (s : String) : s ++ "" = s := by
  cases s with
  | mk data => show String.mk (data ++ []) = String.mk data
               rw [List.append_nil]

/-- C2: the change flag computed by the orchestrator is true exactly when
the previous status is non-empty and differs from the current status; in
particular it is false on a first run (empty previous value), false when
the values coincide, and true when the previous value is non-empty and
different. -/
theorem C2_change_detection :
    (∀ prev status : String,
      (changed_flag prev status = true ↔ (prev ≠ "" ∧ prev ≠ status)))
    ∧ changed_flag "" "X" = false
    ∧ changed_flag "X" "X" = false
    ∧ changed_flag "X" "Y" = true := by
  refine ⟨fun prev status => ?_, rfl, rfl, rfl⟩
  constructor
  · intro h
    simp only [changed_flag, Bool.and_eq_true, bne_iff_ne, ne_eq] at h
    exact ⟨h.1, fun e => h.2 e.symm⟩
  · intro h
    simp only [changed_flag, Bool.and_eq_true, bne_iff_ne, ne_eq]
    exact ⟨h.1, fun e => h.2 e.symm⟩

/-- C3: when no link matching `a[href^="viewcasehistory.do"]` exists in
the parsed page, the extractor returns exactly the sentinel triple
(sentinel name, sentinel status, empty link) and writes the given HTML
unchanged to `debug_ecas_after_auth.html`. -/
theorem C3_no_link_sentinel_and_debug_dump (raw : String) (doc : List Node)
    (h : findWithAncestorsList isCaseHistoryLink [] doc = none) :
    extract_name_status_and_link raw doc =
      (("(name not found)", "⚠️ Status not found", ""),
       [("debug_ecas_after_auth.html", raw)]) := by
  simp [extract_name_status_and_link, h]

/-- Witness for C3 at a concrete page without the link. -/
theorem C3_witness :
    findWithAncestorsList isCaseHistoryLink [] [Node.elem "p" [] [Node.text "hi"]] = none
    ∧ extract_name_status_and_link "<p>hi</p>" [Node.elem "p" [] [Node.text "hi"]] =
        (("(name not found)", "⚠️ Status not found", ""),
         [("debug_ecas_after_auth.html", "<p>hi</p>")]) :=
  ⟨rfl, C3_no_link_sentinel_and_debug_dump "<p>hi</p>" [Node.elem "p" [] [Node.text "hi"]] rfl⟩

/-- C4 counterexample: for a link whose text node is `In␣␣process` (two
internal spaces), the returned status keeps the double space — the source
only strips each text fragment and joins the fragments with single spaces
— so the returned status is not the link's visible text with whitespace
collapsed. -/
theorem C4_counterexample :
    (extract_name_status_and_link "x"
        [Node.elem "a" [("href", "viewcasehistory.do?id=1")] [Node.text "In  process"]]).1.2.1
      = "In  process"
    ∧ collapseWs "In  process" = "In process"
    ∧ ("In  process" : String) ≠ "In process" := by
  refine ⟨rfl, rfl, ?_⟩
  decide

/-- C4 (amended): when the case-history link is found, the returned
status is the link's text under BeautifulSoup `get_text(" ", strip=True)`
semantics — every text fragment trimmed and the non-empty fragments
joined with single spaces (whitespace inside a fragment is preserved, not
collapsed) — and the returned case-history URL is the link's `href`
resolved against the portal base URL; no debug file is written. -/
theorem C4_status_text_and_absolute_url (raw : String) (doc : List Node)
    (a : Node) (anc : List Node)
    (h : findWithAncestorsList isCaseHistoryLink [] doc = some (a, anc)) :
    (extract_name_status_and_link raw doc).1.2.1 = getTextSpaceStrip a
    ∧ (extract_name_status_and_link raw doc).1.2.2 =
        urljoin BASE_URL ((a.attr "href").getD "")
    ∧ (extract_name_status_and_link raw doc).2 = [] := by
  simp [extract_name_status_and_link, h]

/-- Witness for C4 at a concrete page: the status is the trimmed link
text and the URL is the fully qualified address built from the relative
href. -/
theorem C4_witness :
    findWithAncestorsList isCaseHistoryLink [] samplePage =
      some (sampleLink, [sampleTd2, sampleTr, sampleTable])
    ∧ (extract_name_status_and_link "<html>" samplePage).1.2.1 = getTextSpaceStrip sampleLink
    ∧ (extract_name_status_and_link "<html>" samplePage).1.2.2 =
        urljoin BASE_URL ((sampleLink.attr "href").getD "")
    ∧ (extract_name_status_and_link "<html>" samplePage).2 = []
    ∧ getTextSpaceStrip sampleLink = "In process"
    ∧ urljoin BASE_URL ((sampleLink.attr "href").getD "") =
        "https://services3.cic.gc.ca/ecas/viewcasehistory.do?id=1" := by
  have h : findWithAncestorsList isCaseHistoryLink [] samplePage =
      some (sampleLink, [sampleTd2, sampleTr, sampleTable]) := rfl
  have t := C4_status_text_and_absolute_url "<html>" samplePage sampleLink
      [sampleTd2, sampleTr, sampleTable] h
  exact ⟨h, t.1, t.2.1, t.2.2, rfl, rfl⟩

/-- C5 counterexample: a bullet whose text node is `A␣␣B` (two internal
spaces) is formatted as `- A␣␣B`, not as the whitespace-collapsed
`- A B`: the source strips each fragment but does not collapse whitespace
inside a fragment. -/
theorem C5_counterexample :
    (parse_case_history_details "x"
        [Node.elem "li" [("class", "mrgn-bttm-md")] [Node.text "A  B"]]).1 = "- A  B"
    ∧ collapseWs "A  B" = "A B"
    ∧ ("- A  B" : String) ≠ "- " ++ collapseWs "A  B" := by
  refine ⟨rfl, rfl, ?_⟩
  decide

/-- C5 (amended): when at least one bullet element matches
`li.mrgn-bttm-md`, the parser returns the bullets' texts under
BeautifulSoup `get_text(" ", strip=True)` semantics (fragments trimmed
and joined with single spaces, whitespace inside a fragment preserved),
in document order, each prefixed with a dash and a space and joined by
newlines, and writes no debug file; for bullet texts A, B, C the output
is exactly the three dashed lines. -/
theorem C5_history_items_formatted (raw : String) (doc : List Node)
    (h : (selectAllList isHistoryBullet doc).map getTextSpaceStrip ≠ []) :
    parse_case_history_details raw doc =
      (String.intercalate "\n"
        (((selectAllList isHistoryBullet doc).map getTextSpaceStrip).map
          (fun text => "- " ++ text)), []) := by
  simp only [parse_case_history_details]
  rw [if_neg]
  simp [List.isEmpty_iff, h]

/-- Witness for C5 at the concrete history page with bullets A, B, C: the
formatted output is exactly the three dashed lines. -/
theorem C5_witness :
    (selectAllList isHistoryBullet historyABC).map getTextSpaceStrip ≠ []
    ∧ parse_case_history_details "<hist>" historyABC =
        (String.intercalate "\n"
          (((selectAllList isHistoryBullet historyABC).map getTextSpaceStrip).map
            (fun text => "- " ++ text)), [])
    ∧ String.intercalate "\n"
        (((selectAllList isHistoryBullet historyABC).map getTextSpaceStrip).map
          (fun text => "- " ++ text)) = "- A\n- B\n- C" := by
  have h : (selectAllList isHistoryBullet historyABC).map getTextSpaceStrip ≠ [] := by
    decide
  exact ⟨h, C5_history_items_formatted "<hist>" historyABC h, rfl⟩

/-- C6: when no element matches `li.mrgn-bttm-md`, the parser writes the
given HTML to `debug_case_history.html` and returns the fixed warning
sentinel string. -/
theorem C6_no_items_debug_dump (raw : String) (doc : List Node)
    (h : selectAllList isHistoryBullet doc = []) :
    parse_case_history_details raw doc =
      ("⚠️ No case-history bullet items found (see debug_case_history.html)",
       [("debug_case_history.html", raw)]) := by
  simp [parse_case_history_details, h]

/-- Witness for C6 at a concrete history page without bullets. -/
theorem C6_witness :
    selectAllList isHistoryBullet [Node.elem "p" [] [Node.text "nothing here"]] = []
    ∧ parse_case_history_details "<hist>" [Node.elem "p" [] [Node.text "nothing here"]] =
        ("⚠️ No case-history bullet items found (see debug_case_history.html)",
         [("debug_case_history.html", "<hist>")]) :=
  ⟨rfl, C6_no_items_debug_dump "<hist>" [Node.elem "p" [] [Node.text "nothing here"]] rfl⟩

/-- C7: loading the previous status returns the empty string when the
state file does not exist, and the file's content stripped of leading and
trailing whitespace when it exists. -/
theorem C7_load_previous_status (s : String) :
    load_previous_status none = "" ∧ load_previous_status (some s) = pyStrip s :=
  ⟨rfl, rfl⟩

/-- C8: when the case-history link is found, the applicant name returned
by the extractor follows the spec's rule: the whitespace-collapsed
visible text of the first table cell in the table row enclosing the link,
and the sentinel when there is no enclosing row or the row has no
cells. -/
theorem C8_applicant_name (raw : String) (doc : List Node)
    (a : Node) (anc : List Node)
    (h : findWithAncestorsList isCaseHistoryLink [] doc = some (a, anc)) :
    (extract_name_status_and_link raw doc).1.1 = spec_name_rule anc := by
  simp [extract_name_status_and_link, h, spec_name_rule]

/-- Witness for C8 at a concrete page: the name cell's ragged text comes
back fully whitespace-collapsed. -/
theorem C8_witness :
    findWithAncestorsList isCaseHistoryLink [] samplePage =
      some (sampleLink, [sampleTd2, sampleTr, sampleTable])
    ∧ (extract_name_status_and_link "<html>" samplePage).1.1 =
        spec_name_rule [sampleTd2, sampleTr, sampleTable]
    ∧ spec_name_rule [sampleTd2, sampleTr, sampleTable] = "John Doe" :=
  ⟨rfl,
   C8_applicant_name "<html>" samplePage sampleLink [sampleTd2, sampleTr, sampleTable] rfl,
   rfl⟩

/-- C9: the composed email subject is exactly the prefix followed by the
status text, with the new-marker emoji appended when and only when the
change flag is true; on a first run with status "In process" the subject
is exactly that prefix and status with no marker. The orchestrator's
subject is composed exactly this way from its status and change flag. -/
theorem C9_email_subject :
    (∀ status : String, email_subject status false = "eCAS: " ++ status)
    ∧ (∀ status : String, email_subject status true = "eCAS: " ++ status ++ " 🆕")
    ∧ email_subject "In process" false = "eCAS: In process"
    ∧ (∀ authRaw authDoc histRaw histDoc stateFile emailOk now,
        (main_run authRaw authDoc histRaw histDoc stateFile emailOk now).subject =
          email_subject (main_run authRaw authDoc histRaw histDoc stateFile emailOk now).status
            (main_run authRaw authDoc histRaw histDoc stateFile emailOk now).changed) := by
  refine ⟨fun status => ?_, fun status => rfl, rfl, fun _ _ _ _ _ _ _ => rfl⟩
  show "eCAS: " ++ status ++ "" = "eCAS: " ++ status
  exact string_append_empty _

/-- C10: saving a status and then loading returns the status stripped of
surrounding whitespace; the round trip gives back the saved status
verbatim exactly when it has no surrounding whitespace, and a status
saved with surrounding whitespace is not read back verbatim. -/
theorem C10_save_load_roundtrip (s : String) :
    load_previous_status (save_current_status s) = pyStrip s
    ∧ (load_previous_status (save_current_status s) = s ↔ pyStrip s = s)
    ∧ load_previous_status (save_current_status " In process ") ≠ " In process " := by
  refine ⟨rfl, Iff.rfl, ?_⟩
  decide

/-- C1 counterexample: a run whose page holds status "In process", whose
state file holds "Old" and whose email send fails performs no state-file
write at all and does not complete — contradicting the claim that after
an email-send failure the run still attempts to overwrite the state file
with the current status. -/
theorem C1_counterexample :
    (main_run "<html>" samplePage "<hist>" [] (some "Old") false "2026-10-12 00:00:00").status
      = "In process"
    ∧ (main_run "<html>" samplePage "<hist>" [] (some "Old") false "2026-10-12 00:00:00").state_writes
      = []
    ∧ (main_run "<html>" samplePage "<hist>" [] (some "Old") false "2026-10-12 00:00:00").completed
      = false :=
  ⟨rfl, rfl, rfl⟩

/-- C1 (amended): the orchestrator sends the email strictly before
touching the state file; when the send fails the run aborts and no
state-file write is attempted, and when the send succeeds the state file
is overwritten with the current status. -/
theorem C1_state_written_only_after_send (authRaw : String) (authDoc : List Node)
    (histRaw : String) (histDoc : List Node) (stateFile : Option String) (now : String) :
    (main_run authRaw authDoc histRaw histDoc stateFile false now).state_writes = []
    ∧ (main_run authRaw authDoc histRaw histDoc stateFile false now).completed = false
    ∧ (main_run authRaw authDoc histRaw histDoc stateFile true now).state_writes =
        [(main_run authRaw authDoc histRaw histDoc stateFile true now).status] :=
  ⟨rfl, rfl, rfl⟩

end CheckEcas
